import Mathlib

/-!
Shallow embedding of the SNN Tag Creator script (`main_script.py`).

The script is a sequential orchestrator: it prompts the user to pick an
XML configuration, parses it, creates an SVN tag folder, then copies
each configured folder (pinned at a revision) into the tag, appending a
log line per folder and a blank separator line at the end.

The embedding models the externally observable behaviour: the backend
invocations (`svn mkdir` / `svn cp`) as an event trace, the log file as a
list of lines, console output of the copy phase as a list of strings,
whether the final success banner was printed, and the process exit code.
Backend outcomes are supplied by an environment (an oracle per
invocation), since they are external to the program.
-/

namespace SNNTag

/-- Menu of configuration files, from the `bm_options` dict (keys are the
Python ints the user may type). -/
def bm_options : List (Int × String) :=
  [(1, "01_BEV_SP21_7k4W.xml"), (2, "02_BEV_SP21_22kW.xml")]

/-- Python `str(x)` as used by f-string interpolation of a value that may
be `None` (`Element.text` returns `None` for an empty element). -/
def pyStr : Option String → String
  | none => "None"
  | some s => s

/-- Python `s.split(sep, maxsplit)` on the character list, threading the
remaining number of allowed splits. Once the budget is exhausted the
rest of the characters (separators included) belong to the last piece. -/
def pySplitAux (sep : Char) : List Char → Nat → List Char → List String
  | [], _, acc => [String.mk acc.reverse]
  | c :: cs, fuel, acc =>
    if c = sep then
      match fuel with
      | 0 => pySplitAux sep cs 0 (c :: acc)
      | f + 1 => String.mk acc.reverse :: pySplitAux sep cs f []
    else pySplitAux sep cs fuel (c :: acc)

/-- Python `s.split(sep, maxsplit)` for a single-character separator. -/
def pySplit (s : String) (sep : Char) (maxsplit : Nat) : List String :=
  pySplitAux sep s.toList maxsplit []

/-- Display-name derivation from the log-writing block of `main`:
`folder_parts = folder_name.split('_', 2)`;
`part_of_folder_name = folder_parts[-1] if len(folder_parts) == 3 else folder_name`. -/
def part_of_folder_name (folder_name : String) : String :=
  let folder_parts := pySplit folder_name '_' 2
  if folder_parts.length = 3 then folder_parts.getLastD folder_name else folder_name

/-! ## XML documents and `parse_xml_config` -/

/-- An XML element as the script uses it: its attribute dictionary and
its text content (`None` when the element has no text). -/
structure XmlElem where
  attrib : List (String × String)
  text : Option String
  deriving DecidableEq, Repr

/-- The slice of an XML document that `parse_xml_config` touches:
`root.find('root_tag')`, `root.find('root_svn_path')`,
`root.find('root_source')` (each `none` when the child is absent, in
which case the attribute access raises), and the elements matched by
`root.findall('.//BM/folder')` in document order. -/
structure XmlDoc where
  root_tag_elem : Option XmlElem
  root_svn_path_elem : Option XmlElem
  root_source_elem : Option XmlElem
  bm_folder_elems : List XmlElem
  deriving DecidableEq, Repr

/-- The `for folder in root.findall('.//BM/folder')` loop of
`parse_xml_config`: extract `name` and `revision` attributes of each
folder element in order; a missing attribute raises `KeyError`
(modelled as `none`). -/
def collectFolders : List XmlElem → Option (List (String × String))
  | [] => some []
  | f :: fs => do
    let name ← f.attrib.lookup "name"
    let revision ← f.attrib.lookup "revision"
    let rest ← collectFolders fs
    pure ((name, revision) :: rest)

/-- The tuple returned by `parse_xml_config`:
`(root_tag, root_svn_path, source_url, bm_folders)`. `root_svn_path` is
`Element.text`, which Python leaves as `None` when the element is empty. -/
structure TagConfiguration where
  root_tag : String
  root_svn_path : Option String
  source_url : String
  bm_folders : List (String × String)
  deriving DecidableEq, Repr

/-- The body of `parse_xml_config`. A missing element or attribute
raises (`AttributeError` / `KeyError`), modelled as `none`; the
exception is uncaught in `main` and terminates the process. -/
def parse_xml_config (doc : XmlDoc) : Option TagConfiguration := do
  let rt ← doc.root_tag_elem
  let root_tag ← rt.attrib.lookup "name"
  let sp ← doc.root_svn_path_elem
  let root_svn_path := sp.text
  let src ← doc.root_source_elem
  let source_url ← src.attrib.lookup "svn_path"
  let bm_folders ← collectFolders doc.bm_folder_elems
  pure ⟨root_tag, root_svn_path, source_url, bm_folders⟩

/-! ## Backend invocations and their outcomes -/

/-- A backend invocation, with the exact argument strings the script
passes to `subprocess.run`. -/
inductive Event where
  | mkdir (url : String) (message : String)
  | copy (source : String) (destination : String) (message : String)
  deriving DecidableEq, Repr

def Event.isMkdir : Event → Bool
  | .mkdir _ _ => true
  | _ => false

def Event.isCopy : Event → Bool
  | .copy _ _ _ => true
  | _ => false

/-- Outcome of one `svn cp` invocation: zero exit status with its
stdout, non-zero exit status with its stderr, or an exception raised by
the invocation itself (caught by the bare `except Exception`). -/
inductive CopyOutcome where
  | success (stdout : String)
  | failure (stderr : String)
  | exn (message : String)
  deriving DecidableEq, Repr

/-- Outcome of the `svn mkdir` invocation: success, a
`CalledProcessError` (non-zero exit status under `check=True`), or any
other exception. -/
inductive MkdirOutcome where
  | success
  | calledProcessError (stderr : String)
  | exn (message : String)
  deriving DecidableEq, Repr

/-- The external world seen by one run: the outcome of the single mkdir
and the outcome of the i-th copy invocation. -/
structure RunEnv where
  mkdirOutcome : MkdirOutcome
  copyOutcome : Nat → CopyOutcome

/-- Observable result of a run: backend events in order, final log-file
content (one string per line, `""` for a blank line), console prints of
the tag-creation and copy phases, whether the final success banner was
printed, and the process exit code. -/
structure RunResult where
  events : List Event
  log : List String
  prints : List String
  banner : Bool
  exitCode : Nat

/-! ## `create_svn_folder` and `svn_copy` -/

/-- Commit message of `create_svn_folder`. -/
def mkdirMessage (tag_url : String) : String :=
  "Creating BM-tag at " ++ tag_url

/-- Prints of `create_svn_folder` for each outcome; the failure cases
additionally call `sys.exit(1)` (handled in `runMain`). -/
def create_svn_folder_prints (tag_url : String) : MkdirOutcome → List String
  | .success => ["Successfully created BM-tag folder:\n" ++ tag_url ++ "\n"]
  | .calledProcessError stderr => ["SVN Error: " ++ stderr]
  | .exn message => ["An unexpected error occurred: " ++ message]

/-- Per-folder commit message built in the copy loop of `main`. -/
def commitMessage (folder_name revision root_tag : String) : String :=
  "Copying BM \"" ++ folder_name ++ "\" from revision \"" ++ revision
    ++ "\" to Tag \"" ++ root_tag ++ "\"."

/-- Destination URL built in the copy loop of `main`:
`f'{root_svn_path}/{root_tag}/{folder_name}'`. -/
def destinationUrl (cfg : TagConfiguration) (folder_name : String) : String :=
  pyStr cfg.root_svn_path ++ "/" ++ cfg.root_tag ++ "/" ++ folder_name

/-- Tag URL built in `main`: `f'{root_svn_path}/{root_tag}'`. -/
def tagUrl (cfg : TagConfiguration) : String :=
  pyStr cfg.root_svn_path ++ "/" ++ cfg.root_tag

/-- The backend invocation performed by `svn_copy`: the command list is
built before the invocation, so its arguments do not depend on the
outcome. -/
def svn_copy_event (source_url destination_url revision commit_message : String) : Event :=
  .copy (source_url ++ "@" ++ revision) destination_url commit_message

/-- Prints of `svn_copy`: confirmation plus stdout on zero exit status,
failure notice plus stderr on non-zero, generic message on exception.
All branches fall through: `svn_copy` never raises or exits. -/
def svn_copy_prints (source_url destination_url revision : String) :
    CopyOutcome → List String
  | .success stdout =>
      ["Successfully copied from " ++ source_url ++ "@" ++ revision
        ++ " to " ++ destination_url, stdout]
  | .failure stderr =>
      ["Failed to copy from " ++ source_url ++ "@" ++ revision
        ++ " to " ++ destination_url, stderr]
  | .exn message => ["An error occurred: " ++ message]

/-- The `for folder_name, revision in bm_folders` loop of `main`, with
`i` the index of the current iteration (used to look up the copy
outcome). Each iteration appends the log entry FIRST, then invokes
`svn_copy`; copy failures never interrupt the loop. Returns (backend
events, appended log lines, console prints). -/
def copyLoop (cfg : TagConfiguration) (env : RunEnv) :
    Nat → List (String × String) → List Event × List String × List String
  | _, [] => ([], [], [])
  | i, (folder_name, revision) :: rest =>
    let commit_message := commitMessage folder_name revision cfg.root_tag
    let destination_url := destinationUrl cfg folder_name
    let log_entry := part_of_folder_name folder_name ++ " : " ++ destination_url
    let ev := svn_copy_event cfg.source_url destination_url revision commit_message
    let prints := svn_copy_prints cfg.source_url destination_url revision (env.copyOutcome i)
    (ev :: (copyLoop cfg env (i + 1) rest).1,
     log_entry :: (copyLoop cfg env (i + 1) rest).2.1,
     prints ++ (copyLoop cfg env (i + 1) rest).2.2)

/-- Final success banner of `main`. -/
def bannerText (cfg : TagConfiguration) : String :=
  "BM Tag Creation Successful:\n" ++ tagUrl cfg ++ "\n"

/-- The part of `main` after `parse_xml_config` succeeded: create the
tag folder (fatal on failure, `sys.exit(1)`), run the copy loop, append
the blank separator line, print the banner. `log_file_path` is assigned
only inside the copy loop, so when `bm_folders` is empty the final
`with open(log_file_path, ...)` raises `NameError`, which is uncaught:
the process exits with code 1, writes no blank line and prints no
banner. -/
def runMain (cfg : TagConfiguration) (env : RunEnv) (logPre : List String) : RunResult :=
  let tag_url := tagUrl cfg
  let mkdirEv := Event.mkdir tag_url (mkdirMessage tag_url)
  let mkPrints := create_svn_folder_prints tag_url env.mkdirOutcome
  match env.mkdirOutcome with
  | .calledProcessError _ =>
      ⟨[mkdirEv], logPre, mkPrints, false, 1⟩
  | .exn _ =>
      ⟨[mkdirEv], logPre, mkPrints, false, 1⟩
  | .success =>
    match cfg.bm_folders with
    | [] => ⟨[mkdirEv], logPre, mkPrints, false, 1⟩
    | _ :: _ =>
      ⟨mkdirEv :: (copyLoop cfg env 0 cfg.bm_folders).1,
        logPre ++ (copyLoop cfg env 0 cfg.bm_folders).2.1 ++ [""],
        mkPrints ++ (copyLoop cfg env 0 cfg.bm_folders).2.2 ++ [bannerText cfg],
        true, 0⟩

/-! ## Selection prompt and the whole program -/

/-- Result of one call to `get_user_selection`: the chosen file name, a
`ValueError` raised by `int(input(...))` on non-integer input
(propagates to the caller), or the bare `exit()` taken on an integer not
in the menu (raises `SystemExit(None)`, terminating the process with
exit status 0). -/
inductive SelOutcome where
  | value (fileName : String)
  | valueError
  | exitProc
  deriving DecidableEq, Repr

/-- The body of `get_user_selection` on one console input (`none`
models input that does not parse as an integer). -/
def get_user_selection (inp : Option Int) : SelOutcome :=
  match inp with
  | none => .valueError
  | some selection =>
    match bm_options.lookup selection with
    | some fileName => .value fileName
    | none => .exitProc

/-- Result of one iteration of the `while True` selection loop in
`main`: a chosen existing path (break), a retry (non-integer input
caught by `except ValueError`, or chosen file not on disk), or process
termination with the given exit code. -/
inductive SelStep where
  | chosen (path : String)
  | retry
  | exited (code : Nat)
  deriving DecidableEq, Repr

/-- One iteration of the selection loop of `main`: build the path from
the selection, break if the file exists, else print an error and loop;
`except ValueError` prints an invalid-input message and loops;
`SystemExit` from `exit()` is not an `Exception` and terminates the
process with status 0. -/
def selectionStep (baseDir : String) (fileExists : String → Bool)
    (inp : Option Int) : SelStep :=
  match get_user_selection inp with
  | .valueError => .retry
  | .exitProc => .exited 0
  | .value fileName =>
    let path := baseDir ++ "/" ++ fileName
    if fileExists path then .chosen path else .retry

/-- Result of the whole selection loop. -/
inductive SelLoopResult where
  | chosen (path : String)
  | exited (code : Nat)
  deriving DecidableEq, Repr

/-- The `while True` selection loop of `main`, consuming the queued
console inputs. When input is exhausted, `input()` raises `EOFError`,
which no handler catches: the process dies with exit code 1. -/
def runSelection (baseDir : String) (fileExists : String → Bool) :
    List (Option Int) → SelLoopResult
  | [] => .exited 1
  | inp :: rest =>
    match selectionStep baseDir fileExists inp with
    | .chosen path => .chosen path
    | .exited code => .exited code
    | .retry => runSelection baseDir fileExists rest

/-- `XML_BASE_DIR = os.path.join(CURRENT_DIR, 'input_xml_files')`. -/
def xmlBaseDir (currentDir : String) : String :=
  currentDir ++ "/" ++ "input_xml_files"

/-- Everything external to one whole-program run: the working
directory, the queued console inputs, which paths exist on disk, the
XML document stored at each path (`none` when `ET.parse` raises), the
backend outcomes, and the pre-existing log-file content. -/
structure ProgramInput where
  currentDir : String
  userInputs : List (Option Int)
  fileExists : String → Bool
  docAt : String → Option XmlDoc
  env : RunEnv
  logPre : List String

/-- The whole `main`: selection loop, then `parse_xml_config` (an
`ET.ParseError` or a structural access error is uncaught, exit code 1),
then the tag-creation and copy phases of `runMain`. -/
def runProgram (pin : ProgramInput) : RunResult :=
  match runSelection (xmlBaseDir pin.currentDir) pin.fileExists pin.userInputs with
  | .exited code => ⟨[], pin.logPre, [], false, code⟩
  | .chosen path =>
    match pin.docAt path with
    | none => ⟨[], pin.logPre, [], false, 1⟩
    | some doc =>
      match parse_xml_config doc with
      | none => ⟨[], pin.logPre, [], false, 1⟩
      | some cfg => runMain cfg pin.env pin.logPre

/-! ## Helper lemmas -/

/-- Python `split` with `maxsplit = fuel` produces at most `fuel + 1` pieces. -/
theorem pySplitAux_length_le (sep : Char) :
    ∀ (cs : List Char) (fuel : Nat) (acc : List Char),
      (pySplitAux sep cs fuel acc).length ≤ fuel + 1
  | [], _, _ => by simp [pySplitAux]
  | c :: cs, fuel, acc => by
    unfold pySplitAux
    by_cases hc : c = sep
    · rw [if_pos hc]
      cases fuel with
      | zero => exact pySplitAux_length_le sep cs 0 (c :: acc)
      | succ f =>
        have := pySplitAux_length_le sep cs f []
        simpa using Nat.succ_le_succ this
    · rw [if_neg hc]
      exact pySplitAux_length_le sep cs fuel (c :: acc)

theorem pySplit_length_le (s : String) (sep : Char) (maxsplit : Nat) :
    (pySplit s sep maxsplit).length ≤ maxsplit + 1 :=
  pySplitAux_length_le sep s.toList maxsplit []

/-- The backend events produced by the copy loop: one `svn cp` per
configured folder, in configuration order, independent of the outcomes. -/
theorem copyLoop_events (cfg : TagConfiguration) (env : RunEnv) :
    ∀ (fs : List (String × String)) (i : Nat),
      (copyLoop cfg env i fs).1
        = fs.map (fun p => Event.copy (cfg.source_url ++ "@" ++ p.2)
            (destinationUrl cfg p.1) (commitMessage p.1 p.2 cfg.root_tag))
  | [], _ => rfl
  | (n, r) :: rest, i => by
    simp [copyLoop, svn_copy_event, copyLoop_events cfg env rest (i + 1)]

/-- The log lines produced by the copy loop: one per configured folder,
in configuration order, independent of the outcomes. -/
theorem copyLoop_logs (cfg : TagConfiguration) (env : RunEnv) :
    ∀ (fs : List (String × String)) (i : Nat),
      (copyLoop cfg env i fs).2.1
        = fs.map (fun p => part_of_folder_name p.1 ++ " : " ++ destinationUrl cfg p.1)
  | [], _ => rfl
  | (n, r) :: rest, i => by
    simp [copyLoop, copyLoop_logs cfg env rest (i + 1)]

/-- Shape of `runMain` when tag creation succeeds and at least one
folder is configured. -/
theorem runMain_success_shape (cfg : TagConfiguration) (env : RunEnv) (pre : List String)
    (h : env.mkdirOutcome = MkdirOutcome.success) (hne : cfg.bm_folders ≠ []) :
    runMain cfg env pre
      = ⟨Event.mkdir (tagUrl cfg) (mkdirMessage (tagUrl cfg))
            :: (copyLoop cfg env 0 cfg.bm_folders).1,
         pre ++ (copyLoop cfg env 0 cfg.bm_folders).2.1 ++ [""],
         create_svn_folder_prints (tagUrl cfg) MkdirOutcome.success
           ++ (copyLoop cfg env 0 cfg.bm_folders).2.2 ++ [bannerText cfg],
         true, 0⟩ := by
  unfold runMain
  rw [h]
  cases hf : cfg.bm_folders with
  | nil => exact absurd hf hne
  | cons a l => simp [hf]

/-- Shape of `runMain` when tag creation succeeds and no folder is
configured: the uncaught `NameError` at the blank-line append. -/
theorem runMain_empty_shape (cfg : TagConfiguration) (env : RunEnv) (pre : List String)
    (h : env.mkdirOutcome = MkdirOutcome.success) (hf : cfg.bm_folders = []) :
    runMain cfg env pre
      = ⟨[Event.mkdir (tagUrl cfg) (mkdirMessage (tagUrl cfg))], pre,
         create_svn_folder_prints (tagUrl cfg) MkdirOutcome.success, false, 1⟩ := by
  unfold runMain
  rw [h]
  rw [hf]

/-- Every element of a list of copy events built by the copy loop is a
copy event, and filtering for copy events keeps them all. -/
theorem filter_isCopy_copyLoop (cfg : TagConfiguration) (env : RunEnv)
    (fs : List (String × String)) (i : Nat) :
    (copyLoop cfg env i fs).1.filter Event.isCopy = (copyLoop cfg env i fs).1 := by
  rw [copyLoop_events, List.filter_eq_self]
  intro e he
  obtain ⟨p, _, rfl⟩ := List.mem_map.mp he
  rfl

/-! ## Claim theorems -/

/-- C1: for every parsed configuration whose tag creation succeeds, the
backend copy operation is invoked once per configured folder, in
configuration order, with source reference `source_url@revision` and
destination `root_svn_path/root_tag/folder_name`; the right-hand side
does not mention the copy outcomes, so the argument paths are the same
whether each copy succeeds or fails. -/
theorem copy_invocations_per_folder (cfg : TagConfiguration) (env : RunEnv)
    (pre : List String) (h : env.mkdirOutcome = MkdirOutcome.success) :
    (runMain cfg env pre).events.filter Event.isCopy
      = cfg.bm_folders.map (fun p =>
          Event.copy (cfg.source_url ++ "@" ++ p.2)
            (pyStr cfg.root_svn_path ++ "/" ++ cfg.root_tag ++ "/" ++ p.1)
            (commitMessage p.1 p.2 cfg.root_tag)) := by
  cases hf : cfg.bm_folders with
  | nil => rw [runMain_empty_shape cfg env pre h hf]; rfl
  | cons a l =>
    rw [runMain_success_shape cfg env pre h (by rw [hf]; exact List.cons_ne_nil a l)]
    show (Event.mkdir _ _ :: (copyLoop cfg env 0 cfg.bm_folders).1).filter Event.isCopy = _
    rw [List.filter_cons_of_neg (by simp [Event.isCopy])]
    rw [filter_isCopy_copyLoop, copyLoop_events, hf]
    rfl

/-- C1 witness: one folder, with a failing copy, still yields exactly
the one fully-qualified copy invocation. -/
theorem copy_invocations_per_folder_witness :
    (runMain ⟨"TAG1", some "/repo/tags", "/repo/trunk", [("Motor_7k4W_Alpha", "120")]⟩
        ⟨MkdirOutcome.success, fun _ => CopyOutcome.failure "E160013"⟩ []).events.filter
          Event.isCopy
      = [("Motor_7k4W_Alpha", "120")].map (fun p =>
          Event.copy ("/repo/trunk" ++ "@" ++ p.2)
            (pyStr (some "/repo/tags") ++ "/" ++ "TAG1" ++ "/" ++ p.1)
            (commitMessage p.1 p.2 "TAG1")) :=
  copy_invocations_per_folder _ _ _ rfl

/-- C2: in every run that reaches the copy phase (tag creation
succeeded), the backend folder-creation operation appears exactly once,
as the first backend event, at destination `root_svn_path/root_tag`, and
everything after it is a copy event. -/
theorem tag_created_once_before_copies (cfg : TagConfiguration) (env : RunEnv)
    (pre : List String) (h : env.mkdirOutcome = MkdirOutcome.success) :
    ∃ copies : List Event,
      (runMain cfg env pre).events
        = Event.mkdir (pyStr cfg.root_svn_path ++ "/" ++ cfg.root_tag)
            (mkdirMessage (pyStr cfg.root_svn_path ++ "/" ++ cfg.root_tag)) :: copies
      ∧ ∀ e ∈ copies, e.isCopy = true := by
  cases hf : cfg.bm_folders with
  | nil =>
    refine ⟨[], ?_, by simp⟩
    rw [runMain_empty_shape cfg env pre h hf]
    rfl
  | cons a l =>
    refine ⟨(copyLoop cfg env 0 cfg.bm_folders).1, ?_, ?_⟩
    · rw [runMain_success_shape cfg env pre h (by rw [hf]; exact List.cons_ne_nil a l)]
      rfl
    · rw [copyLoop_events]
      intro e he
      obtain ⟨p, _, rfl⟩ := List.mem_map.mp he
      rfl

/-- C2 witness: concrete run reaching the copy phase. -/
theorem tag_created_once_before_copies_witness :
    ∃ copies : List Event,
      (runMain ⟨"TAG1", some "/repo/tags", "/repo/trunk", [("Motor_7k4W_Alpha", "120")]⟩
          ⟨MkdirOutcome.success, fun _ => CopyOutcome.success "A"⟩ []).events
        = Event.mkdir (pyStr (some "/repo/tags") ++ "/" ++ "TAG1")
            (mkdirMessage (pyStr (some "/repo/tags") ++ "/" ++ "TAG1")) :: copies
      ∧ ∀ e ∈ copies, e.isCopy = true :=
  tag_created_once_before_copies _ _ _ rfl

/-- C3: whatever the per-folder copy outcomes (failures and unexpected
exceptions included), a run whose tag creation succeeded performs the
same backend invocations as an all-success run, attempts one copy per
folder, prints the final success banner, and exits with code 0. -/
theorem copy_failures_are_nonfatal (cfg : TagConfiguration) (env envOk : RunEnv)
    (pre : List String) (h : env.mkdirOutcome = MkdirOutcome.success)
    (hOk : envOk.mkdirOutcome = MkdirOutcome.success) (hne : cfg.bm_folders ≠ []) :
    (runMain cfg env pre).events = (runMain cfg envOk pre).events
    ∧ ((runMain cfg env pre).events.filter Event.isCopy).length = cfg.bm_folders.length
    ∧ (runMain cfg env pre).banner = true
    ∧ (runMain cfg env pre).exitCode = 0 := by
  refine ⟨?_, ?_, ?_, ?_⟩
  · rw [runMain_success_shape cfg env pre h hne, runMain_success_shape cfg envOk pre hOk hne]
    rw [copyLoop_events, copyLoop_events]
  · rw [copy_invocations_per_folder cfg env pre h, List.length_map]
  · rw [runMain_success_shape cfg env pre h hne]
  · rw [runMain_success_shape cfg env pre h hne]

/-- C3 witness: a two-folder run whose first copy fails and whose second
raises still attempts both copies, prints the banner and exits 0. -/
theorem copy_failures_are_nonfatal_witness :
    (runMain ⟨"TAG1", some "/repo/tags", "/repo/trunk",
            [("Motor_7k4W_Alpha", "120"), ("Inverter_22kW", "85")]⟩
          ⟨MkdirOutcome.success,
            fun i => if i = 0 then CopyOutcome.failure "E160013" else CopyOutcome.exn "boom"⟩
          []).events
        = (runMain ⟨"TAG1", some "/repo/tags", "/repo/trunk",
            [("Motor_7k4W_Alpha", "120"), ("Inverter_22kW", "85")]⟩
          ⟨MkdirOutcome.success, fun _ => CopyOutcome.success "A"⟩ []).events
    ∧ ((runMain ⟨"TAG1", some "/repo/tags", "/repo/trunk",
            [("Motor_7k4W_Alpha", "120"), ("Inverter_22kW", "85")]⟩
          ⟨MkdirOutcome.success,
            fun i => if i = 0 then CopyOutcome.failure "E160013" else CopyOutcome.exn "boom"⟩
          []).events.filter Event.isCopy).length
        = ([("Motor_7k4W_Alpha", "120"), ("Inverter_22kW", "85")] :
            List (String × String)).length
    ∧ (runMain ⟨"TAG1", some "/repo/tags", "/repo/trunk",
            [("Motor_7k4W_Alpha", "120"), ("Inverter_22kW", "85")]⟩
          ⟨MkdirOutcome.success,
            fun i => if i = 0 then CopyOutcome.failure "E160013" else CopyOutcome.exn "boom"⟩
          []).banner = true
    ∧ (runMain ⟨"TAG1", some "/repo/tags", "/repo/trunk",
            [("Motor_7k4W_Alpha", "120"), ("Inverter_22kW", "85")]⟩
          ⟨MkdirOutcome.success,
            fun i => if i = 0 then CopyOutcome.failure "E160013" else CopyOutcome.exn "boom"⟩
          []).exitCode = 0 :=
  copy_failures_are_nonfatal _ _ _ _ rfl rfl (List.cons_ne_nil _ _)

/-- C4: for a run over a non-empty folder list whose tag creation
succeeded, the final log content is the pre-existing content, unchanged,
followed by one line `display_name : destination` per folder in folder
order, followed by exactly one blank line — independent of the copy
outcomes (the environment is arbitrary). -/
theorem log_block_shape (cfg : TagConfiguration) (env : RunEnv) (pre : List String)
    (h : env.mkdirOutcome = MkdirOutcome.success) (hne : cfg.bm_folders ≠ []) :
    (runMain cfg env pre).log
      = pre ++ cfg.bm_folders.map
          (fun p => part_of_folder_name p.1 ++ " : " ++ destinationUrl cfg p.1) ++ [""] := by
  rw [runMain_success_shape cfg env pre h hne, copyLoop_logs]

/-- C4 witness: the spec scenario, with the second copy failing: two log
lines then one blank line are appended after the pre-existing content. -/
theorem log_block_shape_witness :
    (runMain ⟨"TAG1", some "/repo/tags", "/repo/trunk",
          [("Motor_7k4W_Alpha", "120"), ("Inverter_22kW", "85")]⟩
        ⟨MkdirOutcome.success,
          fun i => if i = 0 then CopyOutcome.success "A" else CopyOutcome.failure "E"⟩
        ["old line"]).log
      = ["old line"] ++ ([("Motor_7k4W_Alpha", "120"), ("Inverter_22kW", "85")] :
            List (String × String)).map
          (fun p => part_of_folder_name p.1
            ++ " : " ++ destinationUrl ⟨"TAG1", some "/repo/tags", "/repo/trunk",
                [("Motor_7k4W_Alpha", "120"), ("Inverter_22kW", "85")]⟩ p.1) ++ [""] :=
  log_block_shape _ _ _ rfl (List.cons_ne_nil _ _)

/-- C5 counterexample: a run with a single folder whose copy fails
(observable in the console output) still appends that folder's log
line — the log line is written before the copy, not upon its success. -/
theorem log_line_despite_copy_failure_cex :
    (runMain ⟨"TAG1", some "/repo/tags", "/repo/trunk", [("FolderA", "120")]⟩
        ⟨MkdirOutcome.success, fun _ => CopyOutcome.failure "E160013"⟩ []).log
      = ["FolderA : /repo/tags/TAG1/FolderA", ""]
    ∧ "Failed to copy from /repo/trunk@120 to /repo/tags/TAG1/FolderA"
        ∈ (runMain ⟨"TAG1", some "/repo/tags", "/repo/trunk", [("FolderA", "120")]⟩
            ⟨MkdirOutcome.success, fun _ => CopyOutcome.failure "E160013"⟩ []).prints := by
  exact ⟨rfl, by decide⟩

/-- C5 amended: the log receives one line per attempted folder copy —
the line is written before the copy is invoked and regardless of its
outcome, so the log content is the same under any copy outcomes; a
trailing blank line separates sessions. -/
theorem log_line_per_attempt (cfg : TagConfiguration) (env env' : RunEnv)
    (pre : List String) (h : env.mkdirOutcome = MkdirOutcome.success)
    (h' : env'.mkdirOutcome = MkdirOutcome.success) :
    (runMain cfg env pre).log = (runMain cfg env' pre).log
    ∧ (cfg.bm_folders ≠ [] →
        (runMain cfg env pre).log
          = pre ++ cfg.bm_folders.map
              (fun p => part_of_folder_name p.1 ++ " : " ++ destinationUrl cfg p.1)
              ++ [""]) := by
  refine ⟨?_, fun hne => log_block_shape cfg env pre h hne⟩
  cases hf : cfg.bm_folders with
  | nil => rw [runMain_empty_shape cfg env pre h hf, runMain_empty_shape cfg env' pre h' hf]
  | cons a l =>
    have hne : cfg.bm_folders ≠ [] := by rw [hf]; exact List.cons_ne_nil a l
    rw [log_block_shape cfg env pre h hne, log_block_shape cfg env' pre h' hne]

/-- C5 amended witness: all-failing and all-succeeding copy outcomes
produce the same log block. -/
theorem log_line_per_attempt_witness :
    (runMain ⟨"TAG1", some "/repo/tags", "/repo/trunk", [("FolderA", "120")]⟩
        ⟨MkdirOutcome.success, fun _ => CopyOutcome.failure "E"⟩ []).log
      = (runMain ⟨"TAG1", some "/repo/tags", "/repo/trunk", [("FolderA", "120")]⟩
          ⟨MkdirOutcome.success, fun _ => CopyOutcome.success "A"⟩ []).log
    ∧ (([(("FolderA" : String), ("120" : String))] : List (String × String)) ≠ [] →
        (runMain ⟨"TAG1", some "/repo/tags", "/repo/trunk", [("FolderA", "120")]⟩
            ⟨MkdirOutcome.success, fun _ => CopyOutcome.failure "E"⟩ []).log
          = [] ++ ([(("FolderA" : String), ("120" : String))] :
                List (String × String)).map
              (fun p => part_of_folder_name p.1 ++ " : "
                ++ destinationUrl ⟨"TAG1", some "/repo/tags", "/repo/trunk",
                    [("FolderA", "120")]⟩ p.1) ++ [""]) :=
  log_line_per_attempt _ _ _ _ rfl rfl

/-- C6: the display name used in the log is the third segment of the
folder name when splitting at the first two underscores yields exactly
three segments, and the unchanged folder name when it yields fewer
(more than three segments is impossible); the backend copy arguments
are built from the raw folder name only, so the derivation never
affects the source or destination paths of the copy. -/
theorem display_name_derivation (folder_name : String) :
    ((pySplit folder_name '_' 2).length = 3 →
        part_of_folder_name folder_name = (pySplit folder_name '_' 2).getD 2 "")
    ∧ ((pySplit folder_name '_' 2).length < 3 →
        part_of_folder_name folder_name = folder_name)
    ∧ (pySplit folder_name '_' 2).length ≤ 3
    ∧ ∀ (cfg : TagConfiguration) (env : RunEnv) (i : Nat) (fs : List (String × String)),
        (copyLoop cfg env i fs).1
          = fs.map (fun p => Event.copy (cfg.source_url ++ "@" ++ p.2)
              (pyStr cfg.root_svn_path ++ "/" ++ cfg.root_tag ++ "/" ++ p.1)
              (commitMessage p.1 p.2 cfg.root_tag)) := by
  refine ⟨?_, ?_, pySplit_length_le folder_name '_' 2, ?_⟩
  · intro h3
    unfold part_of_folder_name
    rw [if_pos h3]
    match hs : pySplit folder_name '_' 2, h3 with
    | [a, b, c], _ => rfl
  · intro hlt
    unfold part_of_folder_name
    rw [if_neg (by omega)]
  · intro cfg env i fs
    rw [copyLoop_events]
    rfl

/-- C6 witness: `A_B_C_D` yields `C_D` (the third segment after two
splits), `SingleName` stays unchanged. -/
theorem display_name_derivation_witness :
    part_of_folder_name "A_B_C_D" = (pySplit "A_B_C_D" '_' 2).getD 2 ""
    ∧ part_of_folder_name "SingleName" = "SingleName" :=
  ⟨(display_name_derivation "A_B_C_D").1 (by decide),
   (display_name_derivation "SingleName").2.1 (by decide)⟩

/-- C7: with an empty folder list, tag creation succeeds and no copy is
attempted, but the run does NOT complete normally: `log_file_path` is
only assigned inside the copy loop, so the final blank-line append
raises an uncaught `NameError` — the process exits with code 1, the
blank separator line is not written and the success banner is not
printed. This contradicts the claimed no-op copy phase with normal
completion. -/
theorem empty_folder_list_crashes :
    (runMain ⟨"TAG1", some "/repo/tags", "/repo/trunk", []⟩
        ⟨MkdirOutcome.success, fun _ => CopyOutcome.success ""⟩ ["pre"]).exitCode = 1
    ∧ (runMain ⟨"TAG1", some "/repo/tags", "/repo/trunk", []⟩
        ⟨MkdirOutcome.success, fun _ => CopyOutcome.success ""⟩ ["pre"]).banner = false
    ∧ (runMain ⟨"TAG1", some "/repo/tags", "/repo/trunk", []⟩
        ⟨MkdirOutcome.success, fun _ => CopyOutcome.success ""⟩ ["pre"]).log = ["pre"]
    ∧ (runMain ⟨"TAG1", some "/repo/tags", "/repo/trunk", []⟩
        ⟨MkdirOutcome.success, fun _ => CopyOutcome.success ""⟩ ["pre"]).events
      = [Event.mkdir "/repo/tags/TAG1" "Creating BM-tag at /repo/tags/TAG1"] :=
  ⟨rfl, rfl, rfl, rfl⟩

/-- C8: in the selection prompt, non-integer input raises `ValueError`,
which the orchestrator loop catches and re-prompts on (never fatal); an
integer that is a valid menu key returns exactly that key's configured
file name; an integer not in the menu takes the hard `exit()` branch,
terminating the process immediately without consuming further input. -/
theorem selection_prompt_behaviour :
    (∀ (baseDir : String) (fileExists : String → Bool),
        selectionStep baseDir fileExists none = SelStep.retry)
    ∧ (∀ (baseDir : String) (fileExists : String → Bool) (rest : List (Option Int)),
        runSelection baseDir fileExists (none :: rest)
          = runSelection baseDir fileExists rest)
    ∧ (∀ (k : Int) (f : String), (k, f) ∈ bm_options →
        get_user_selection (some k) = SelOutcome.value f)
    ∧ (∀ n : Int, bm_options.lookup n = none →
        get_user_selection (some n) = SelOutcome.exitProc
        ∧ ∀ (baseDir : String) (fileExists : String → Bool) (rest : List (Option Int)),
            runSelection baseDir fileExists (some n :: rest) = SelLoopResult.exited 0) := by
  refine ⟨fun _ _ => rfl, fun _ _ _ => rfl, ?_, ?_⟩
  · intro k f hm
    simp only [bm_options, List.mem_cons, List.not_mem_nil, or_false, Prod.mk.injEq] at hm
    rcases hm with ⟨rfl, rfl⟩ | ⟨rfl, rfl⟩ <;> rfl
  · intro n hn
    refine ⟨?_, fun baseDir fileExists rest => ?_⟩
    · simp [get_user_selection, hn]
    · simp [runSelection, selectionStep, get_user_selection, hn]

/-- C8 witness: key 1 yields its configured file; 3 is rejected with the
hard exit; non-integer input re-prompts. -/
theorem selection_prompt_behaviour_witness :
    selectionStep "base" (fun _ => true) none = SelStep.retry
    ∧ get_user_selection (some 1) = SelOutcome.value "01_BEV_SP21_7k4W.xml"
    ∧ get_user_selection (some 3) = SelOutcome.exitProc :=
  ⟨selection_prompt_behaviour.1 "base" (fun _ => true),
   selection_prompt_behaviour.2.2.1 1 "01_BEV_SP21_7k4W.xml" (by decide),
   (selection_prompt_behaviour.2.2.2 3 (by decide)).1⟩

/-- The selection-loop step only ever terminates the process with exit
status 0 (the bare `exit()` on an invalid menu choice). -/
theorem selectionStep_exit_zero (baseDir : String) (fileExists : String → Bool)
    (inp : Option Int) (c : Nat)
    (h : selectionStep baseDir fileExists inp = SelStep.exited c) : c = 0 := by
  unfold selectionStep at h
  cases hg : get_user_selection inp with
  | value f =>
    rw [hg] at h
    simp only at h
    split at h <;> exact absurd h (by simp)
  | valueError => rw [hg] at h; exact absurd h (by simp)
  | exitProc => rw [hg] at h; simp only [SelStep.exited.injEq] at h; omega

/-- The selection loop exits either with status 0 (invalid menu choice)
or 1 (console input exhausted: uncaught `EOFError`). -/
theorem runSelection_exit_codes (baseDir : String) (fileExists : String → Bool) :
    ∀ (inputs : List (Option Int)) (c : Nat),
      runSelection baseDir fileExists inputs = SelLoopResult.exited c → c = 0 ∨ c = 1
  | [], c, h => by
    simp only [runSelection, SelLoopResult.exited.injEq] at h
    omega
  | inp :: rest, c, h => by
    unfold runSelection at h
    cases hs : selectionStep baseDir fileExists inp with
    | chosen path => rw [hs] at h; exact absurd h (by simp)
    | retry => rw [hs] at h; exact runSelection_exit_codes baseDir fileExists rest c h
    | exited code =>
      rw [hs] at h
      simp only [SelLoopResult.exited.injEq] at h
      exact Or.inl (h ▸ selectionStep_exit_zero baseDir fileExists inp code hs)

/-- After the copy phase is entered, the run exits 0 exactly when the
success banner was printed, and otherwise exits 1. -/
theorem runMain_exit_codes (cfg : TagConfiguration) (env : RunEnv) (pre : List String) :
    ((runMain cfg env pre).exitCode = 0 ∨ (runMain cfg env pre).exitCode = 1)
    ∧ ((runMain cfg env pre).exitCode = 0 ↔ (runMain cfg env pre).banner = true) := by
  unfold runMain
  cases env.mkdirOutcome with
  | success => cases cfg.bm_folders with
    | nil => simp
    | cons a l => simp
  | calledProcessError e => simp
  | exn e => simp

/-- C9 counterexample: entering the integer 3, which is not a menu key,
takes the claimed fatal hard-exit branch, yet the process terminates
with exit code 0 — the bare Python `exit()` raises `SystemExit(None)`,
whose exit status is 0, not the claimed non-zero code. The run did not
complete (no banner, no backend event). -/
theorem invalid_choice_exits_zero_cex :
    (runProgram ⟨"/cwd", [some 3], fun _ => false, fun _ => none,
        ⟨MkdirOutcome.success, fun _ => CopyOutcome.success ""⟩, []⟩).exitCode = 0
    ∧ (runProgram ⟨"/cwd", [some 3], fun _ => false, fun _ => none,
        ⟨MkdirOutcome.success, fun _ => CopyOutcome.success ""⟩, []⟩).banner = false
    ∧ (runProgram ⟨"/cwd", [some 3], fun _ => false, fun _ => none,
        ⟨MkdirOutcome.success, fun _ => CopyOutcome.success ""⟩, []⟩).events = [] :=
  ⟨rfl, rfl, rfl⟩

/-- C9 amended: the process exit code is always 0 or 1; it is 0 exactly
when either the run fully completed (success banner printed, even if
individual copies failed) or the selection loop took the hard `exit()`
on an integer that is not a menu key (which exits with status 0, not a
non-zero code); every other fatal branch — configuration-parse failure,
tag-creation failure, exhausted input, unhandled exception — exits 1. -/
theorem exit_code_classification (pin : ProgramInput) :
    ((runProgram pin).exitCode = 0 ∨ (runProgram pin).exitCode = 1)
    ∧ ((runProgram pin).exitCode = 0 ↔
        ((runProgram pin).banner = true
          ∨ runSelection (xmlBaseDir pin.currentDir) pin.fileExists pin.userInputs
              = SelLoopResult.exited 0)) := by
  unfold runProgram
  cases hs : runSelection (xmlBaseDir pin.currentDir) pin.fileExists pin.userInputs with
  | exited code =>
    rcases runSelection_exit_codes _ _ _ _ hs with h0 | h1
    · subst h0; simp
    · subst h1; simp
  | chosen path =>
    cases hd : pin.docAt path with
    | none => simp [hd]
    | some doc =>
      cases hp : parse_xml_config doc with
      | none => simp [hd, hp]
      | some cfg =>
        have hm := runMain_exit_codes cfg pin.env pin.logPre
        simp only [hd, hp]
        refine ⟨hm.1, ?_⟩
        rw [hm.2]
        simp

/-- C9 amended witness: a completed two-folder run with one failing copy
exits 0 with the banner. -/
theorem exit_code_classification_witness :
    ((runProgram ⟨"/cwd", [none, some 1], fun _ => true,
          fun _ => some ⟨some ⟨[("name", "TAG1")], none⟩, some ⟨[], some "/repo/tags"⟩,
            some ⟨[("svn_path", "/repo/trunk")], none⟩,
            [⟨[("name", "FolderA"), ("revision", "120")], none⟩]⟩,
          ⟨MkdirOutcome.success, fun _ => CopyOutcome.failure "E"⟩, []⟩).exitCode = 0
      ∨ (runProgram ⟨"/cwd", [none, some 1], fun _ => true,
          fun _ => some ⟨some ⟨[("name", "TAG1")], none⟩, some ⟨[], some "/repo/tags"⟩,
            some ⟨[("svn_path", "/repo/trunk")], none⟩,
            [⟨[("name", "FolderA"), ("revision", "120")], none⟩]⟩,
          ⟨MkdirOutcome.success, fun _ => CopyOutcome.failure "E"⟩, []⟩).exitCode = 1)
    ∧ ((runProgram ⟨"/cwd", [none, some 1], fun _ => true,
          fun _ => some ⟨some ⟨[("name", "TAG1")], none⟩, some ⟨[], some "/repo/tags"⟩,
            some ⟨[("svn_path", "/repo/trunk")], none⟩,
            [⟨[("name", "FolderA"), ("revision", "120")], none⟩]⟩,
          ⟨MkdirOutcome.success, fun _ => CopyOutcome.failure "E"⟩, []⟩).exitCode = 0 ↔
        ((runProgram ⟨"/cwd", [none, some 1], fun _ => true,
          fun _ => some ⟨some ⟨[("name", "TAG1")], none⟩, some ⟨[], some "/repo/tags"⟩,
            some ⟨[("svn_path", "/repo/trunk")], none⟩,
            [⟨[("name", "FolderA"), ("revision", "120")], none⟩]⟩,
          ⟨MkdirOutcome.success, fun _ => CopyOutcome.failure "E"⟩, []⟩).banner = true
          ∨ runSelection (xmlBaseDir "/cwd") (fun _ => true) [none, some 1]
              = SelLoopResult.exited 0)) :=
  exit_code_classification _

/-- Extraction of the `name` and `revision` attributes of one folder
element, as the parse loop performs it. -/
def folderAttrs (e : XmlElem) : Option (String × String) :=
  (e.attrib.lookup "name").bind (fun n =>
    (e.attrib.lookup "revision").map (fun r => (n, r)))

/-- `collectFolders` succeeds with one pair per folder element, in
document order, each carrying exactly that element's `name` and
`revision` attribute values. -/
theorem collectFolders_spec :
    ∀ (es : List XmlElem) (fs : List (String × String)),
      collectFolders es = some fs →
      fs.length = es.length
      ∧ ∀ i : Nat, fs.get? i = (es.get? i).bind folderAttrs
  | [], fs, h => by
    simp only [collectFolders, Option.some.injEq] at h
    subst h
    exact ⟨rfl, fun i => by simp⟩
  | e :: es, fs, h => by
    simp only [collectFolders, Option.bind_eq_bind, Option.bind_eq_some, Option.pure_def,
      Option.some.injEq] at h
    obtain ⟨n, hn, r, hr, rest, hrest, hfs⟩ := h
    obtain ⟨hlen, hget⟩ := collectFolders_spec es rest hrest
    subst hfs
    refine ⟨by simp [hlen], fun i => ?_⟩
    cases i with
    | zero => simp [folderAttrs, hn, hr]
    | succ j => simpa using hget j

/-- C10 amended: whenever `parse_xml_config` succeeds, the parsed
configuration carries one (name, revision) pair per folder element, in
document order, each pair being exactly the element's `name` and
`revision` attribute values — the parser copies them verbatim and
performs no validation (in particular no non-emptiness check). -/
theorem parse_folders_verbatim (doc : XmlDoc) (cfg : TagConfiguration)
    (h : parse_xml_config doc = some cfg) :
    cfg.bm_folders.length = doc.bm_folder_elems.length
    ∧ ∀ i : Nat, cfg.bm_folders.get? i = (doc.bm_folder_elems.get? i).bind folderAttrs := by
  simp only [parse_xml_config, Option.bind_eq_bind, Option.bind_eq_some, Option.pure_def,
    Option.some.injEq] at h
  obtain ⟨rt, hrt, name, hname, sp, hsp, src, hsrc, surl, hsurl, fs, hfs, hcfg⟩ := h
  subst hcfg
  exact collectFolders_spec doc.bm_folder_elems fs hfs

/-- C10 amended witness: the parse of a complete document yields its two
folder pairs verbatim and in order. -/
theorem parse_folders_verbatim_witness :
    (⟨"TAG1", some "/repo/tags", "/repo/trunk",
        [("Motor_7k4W_Alpha", "120"), ("Inverter_22kW", "85")]⟩ :
          TagConfiguration).bm_folders.length
      = ([⟨[("name", "Motor_7k4W_Alpha"), ("revision", "120")], none⟩,
          ⟨[("name", "Inverter_22kW"), ("revision", "85")], none⟩] : List XmlElem).length
    ∧ ∀ i : Nat,
        (⟨"TAG1", some "/repo/tags", "/repo/trunk",
            [("Motor_7k4W_Alpha", "120"), ("Inverter_22kW", "85")]⟩ :
              TagConfiguration).bm_folders.get? i
          = (([⟨[("name", "Motor_7k4W_Alpha"), ("revision", "120")], none⟩,
              ⟨[("name", "Inverter_22kW"), ("revision", "85")], none⟩] :
                List XmlElem).get? i).bind folderAttrs :=
  parse_folders_verbatim
    ⟨some ⟨[("name", "TAG1")], none⟩, some ⟨[], some "/repo/tags"⟩,
      some ⟨[("svn_path", "/repo/trunk")], none⟩,
      [⟨[("name", "Motor_7k4W_Alpha"), ("revision", "120")], none⟩,
       ⟨[("name", "Inverter_22kW"), ("revision", "85")], none⟩]⟩
    _ rfl

/-- C10 counterexample: a structurally complete configuration document
whose folder element carries an empty `revision` attribute parses
successfully, and the resulting folder list contains an empty revision —
the parser enforces no non-emptiness. -/
theorem parse_accepts_empty_revision_cex :
    parse_xml_config
        ⟨some ⟨[("name", "TAG1")], none⟩, some ⟨[], some "/repo/tags"⟩,
          some ⟨[("svn_path", "/repo/trunk")], none⟩,
          [⟨[("name", "FolderA"), ("revision", "")], none⟩]⟩
      = some ⟨"TAG1", some "/repo/tags", "/repo/trunk", [("FolderA", "")]⟩
    ∧ ∃ p ∈ (⟨"TAG1", some "/repo/tags", "/repo/trunk", [("FolderA", "")]⟩ :
          TagConfiguration).bm_folders, p.2 = "" :=
  ⟨rfl, by decide⟩

end SNNTag
